import Mathlib

/-!
Verification of the phase1-verifier coordinator client
(src/phase1-verifier/src/coordinator_requests.rs).

The file embeds the five coordinator operations of `impl Verifier`
(lock_chunk, verify_contribution, download_response_file,
download_challenge_file, upload_next_challenge_locator_file) as pure Lean
functions.  The external effect points of the Rust code are passed in
explicitly: the view-key parser (snarkos_toolkit ViewKey::from_str) and the
HTTP transport (reqwest Client::send) become function arguments, so each
operation maps the outcome of those collaborators to the request it builds
and the result it returns.  Machine strings are Lean Strings; byte buffers
are List UInt8.
-/

/-- Rust str::replace with pattern "./" and empty replacement, on the
character list of a string: scan left to right, on a match skip both
pattern characters, otherwise emit one character and continue.  This is the
locator canonicalization used by coordinator_requests.rs
(`path.replace("./", "")`, lines 83, 126, 169, 213). -/
def stripDotSlash : List Char → List Char
  | [] => []
  | [c] => [c]
  | a :: b :: rest =>
    if a = '.' && b = '/' then stripDotSlash rest
    else a :: stripDotSlash (b :: rest)

/-- Whether the character list contains the two-character pattern "./". -/
def containsDotSlash : List Char → Bool
  | [] => false
  | [_] => false
  | a :: b :: rest => (a = '.' && b = '/') || containsDotSlash (b :: rest)

/-- The `./`-stripping canonicalization on strings: `s.replace("./", "")`
of the Rust source. -/
def canonLocator (s : String) : String := ⟨stripDotSlash s.data⟩

/-- Whether a string contains an occurrence of "./". -/
def containsDotSlashStr (s : String) : Bool := containsDotSlash s.data

/-- Modelled from the spec: the secret viewing key type of the external
snarkos_toolkit crate (spec section 3, Identity).  Only its parsed identity
matters to the client, so it is carried as an opaque wrapper. -/
structure ViewKey where
  key : String

/-- Modelled from the spec: a Signature is a deterministic pure value
computed from the secret key, the HTTP method and the canonical path (spec
section 4.1); the client only ever uses its string form. -/
structure Signature where
  viewKey : ViewKey
  method : String
  path : String

/-- Modelled from the spec: the string form of a signature, placed in the
Authorization header (spec sections 4.2 and 6).  Its exact format is
ceremony-defined; the embedding keeps it injective in the signature. -/
def sigToString (s : Signature) : String :=
  s.viewKey.key ++ ":" ++ s.method ++ ":" ++ s.path

/-- Modelled from the spec: `sign(secret_key, method, canonical_path)`,
the pure deterministic signer of spec section 4.1 (utils.rs is not part of
the sources; coordinator_requests.rs calls it as `authenticate`). -/
def authenticate (view_key : ViewKey) (method : String) (path : String) : Signature :=
  { viewKey := view_key, method := method, path := path }

/-- Modelled from the spec: the error taxonomy of spec section 7 (errors.rs
is not part of the sources; coordinator_requests.rs constructs the
FailedRequest, FailedLock, FailedVerification, FailedResponseDownload,
FailedChallengeDownload and FailedChallengeUpload variants, and converts
key-parse and JSON-decode failures with the `?` operator). -/
inductive VerifierError where
  | InvalidKey : VerifierError
  | FailedRequest : String → String → VerifierError
  | FailedLock : VerifierError
  | FailedVerification : String → VerifierError
  | FailedResponseDownload : String → VerifierError
  | FailedChallengeDownload : String → VerifierError
  | FailedChallengeUpload : String → VerifierError
  | JsonError : String → VerifierError

/-- Modelled from the spec: the structured payload of the lock operation
(spec sections 3 and 8: chunk identifier plus the challenge and response
file locators; verifier.rs is not part of the sources). -/
structure LockResponse where
  chunk_id : String
  challenge_locator : String
  response_locator : String

/-- A JSON value, the body type handed to the lock-response decoder. -/
inductive Json where
  | null : Json
  | bool : Bool → Json
  | num : Int → Json
  | str : String → Json
  | arr : List Json → Json
  | obj : List (String × Json) → Json

/-- First binding of a key in a JSON object field list. -/
def jsonLookup : List (String × Json) → String → Option Json
  | [], _ => none
  | (k, v) :: rest, key => if k = key then some v else jsonLookup rest key

/-- Modelled from the spec: serialization of a LockResponse into the JSON
body the coordinator sends (spec section 6, LockResponse schema). -/
def encodeLockResponse (lr : LockResponse) : Json :=
  .obj [("chunk_id", .str lr.chunk_id),
        ("challenge_locator", .str lr.challenge_locator),
        ("response_locator", .str lr.response_locator)]

/-- Modelled from the spec: strict schema-validated decoding of a
LockResponse from a JSON body (spec sections 3 and 6: decoding must fail
loudly on schema drift).  This stands for `response.json()` followed by
`serde_json::from_value::<LockResponse>` in lock_chunk. -/
def decodeLockResponse : Json → Except String LockResponse
  | .obj fields =>
    match jsonLookup fields "chunk_id", jsonLookup fields "challenge_locator",
        jsonLookup fields "response_locator" with
    | some (.str c), some (.str ch), some (.str r) =>
      .ok { chunk_id := c, challenge_locator := ch, response_locator := r }
    | _, _, _ => .error "invalid LockResponse schema"
  | _ => .error "expected a JSON object"

/-- The verifier state used by coordinator_requests.rs: the coordinator
base URL and the stored view-key string (fields of the Verifier struct
read by every operation). -/
structure Verifier where
  coordinator_api_url : String
  view_key : String

/-- reqwest StatusCode::is_success: the 2xx range. -/
def statusIsSuccess (status : Nat) : Bool := 200 ≤ status && status ≤ 299

/-- An outbound HTTP request as the client builds it: method, the URL
string handed to the HTTP client, the header list in the order set, and
the optional byte body. -/
structure Request where
  method : String
  url : String
  headers : List (String × String)
  body : Option (List UInt8)

/-- Outcome of sending one request: an HTTP response with a status code
and a body of type β, or a transport-level failure (the send itself
failed, no response). -/
inductive HttpResult (β : Type) where
  | ok : Nat → β → HttpResult β
  | err : HttpResult β

/-- lock_chunk path: `/coordinator/verifier/lock` (line 23). -/
def lockPath : String := "/coordinator/verifier/lock"

/-- lock_chunk signature path: `format!("/api{}", path)` (line 27); no
stripping is applied to this constant path. -/
def lockSigPath : String := "/api" ++ lockPath

/-- verify_contribution path: `format!("/coordinator/verify/{}", verified_locator)`
(line 74), with the raw locator. -/
def verifyPath (verified_locator : String) : String :=
  "/coordinator/verify/" ++ verified_locator

/-- verify_contribution signature path:
`format!("/api{}", path.replace("./", ""))` (line 83). -/
def verifySigPath (verified_locator : String) : String :=
  "/api" ++ canonLocator (verifyPath verified_locator)

/-- download path used by both download_response_file (line 120) and
download_challenge_file (line 163):
`format!("/coordinator/locator/{}", locator)` with the raw locator. -/
def locatorPath (locator : String) : String :=
  "/coordinator/locator/" ++ locator

/-- download signature path: `format!("/api{}", path.replace("./", ""))`
(lines 126 and 169). -/
def locatorSigPath (locator : String) : String :=
  "/api" ++ canonLocator (locatorPath locator)

/-- upload_next_challenge_locator_file path:
`format!("/coordinator/verification/{}", next_challenge_locator)` (line 209). -/
def uploadPath (next_challenge_locator : String) : String :=
  "/coordinator/verification/" ++ next_challenge_locator

/-- upload signature path: `format!("/api{}", path.replace("./", ""))`
(line 213). -/
def uploadSigPath (next_challenge_locator : String) : String :=
  "/api" ++ canonLocator (uploadPath next_challenge_locator)

/-- The request built by lock_chunk (lines 32-35): POST to
`{base_url}{path}` with the Authorization header set to the string form of
the signature over the lock signature path, and no body. -/
def lockRequest (self : Verifier) (view_key : ViewKey) : Request :=
  { method := "post"
    url := self.coordinator_api_url ++ lockPath
    headers := [("Authorization", sigToString (authenticate view_key "post" lockSigPath))]
    body := none }

/-- The request built by verify_contribution (lines 85-88): POST to
`{base_url}{path}` with the raw instantiated path, Authorization header,
no body. -/
def verifyRequest (self : Verifier) (view_key : ViewKey) (verified_locator : String) : Request :=
  { method := "post"
    url := self.coordinator_api_url ++ verifyPath verified_locator
    headers := [("Authorization",
      sigToString (authenticate view_key "post" (verifySigPath verified_locator)))]
    body := none }

/-- The request built by download_response_file (lines 128-131) and
download_challenge_file (lines 171-174): GET to `{base_url}{path}` with
the raw instantiated path, Authorization header, no body. -/
def locatorRequest (self : Verifier) (view_key : ViewKey) (locator : String) : Request :=
  { method := "get"
    url := self.coordinator_api_url ++ locatorPath locator
    headers := [("Authorization",
      sigToString (authenticate view_key "get" (locatorSigPath locator)))]
    body := none }

/-- The request built by upload_next_challenge_locator_file (lines
222-227): POST to `{base_url}{path}` with the raw instantiated path,
Authorization header, a Content-Type octet-stream header, and the byte
buffer as body. -/
def uploadRequest (self : Verifier) (view_key : ViewKey) (next_challenge_locator : String)
    (next_challenge_file_bytes : List UInt8) : Request :=
  { method := "post"
    url := self.coordinator_api_url ++ uploadPath next_challenge_locator
    headers := [("Authorization",
      sigToString (authenticate view_key "post" (uploadSigPath next_challenge_locator))),
      ("Content-Type", "application/octet-stream")]
    body := some next_challenge_file_bytes }

/-- lock_chunk (lines 20-59).  Returns the request it sent (none when it
returned before sending) and the result: key-parse failure propagates the
parser's error; a transport failure yields FailedRequest with the raw path
and the base URL; a non-success status yields FailedLock; a success status
decodes the body, propagating a decode failure as a JsonError distinct
from FailedLock. -/
def lock_chunk (self : Verifier)
    (viewKeyFromStr : String → Except VerifierError ViewKey)
    (send : Request → HttpResult Json) :
    Option Request × Except VerifierError LockResponse :=
  match viewKeyFromStr self.view_key with
  | .error e => (none, .error e)
  | .ok view_key =>
    let req := lockRequest self view_key
    match send req with
    | .ok status body =>
      if !statusIsSuccess status then (some req, .error .FailedLock)
      else
        match decodeLockResponse body with
        | .error e => (some req, .error (.JsonError e))
        | .ok lock_response => (some req, .ok lock_response)
    | .err => (some req, .error (.FailedRequest lockPath self.coordinator_api_url))

/-- verify_contribution (lines 71-107).  A non-success status yields
FailedVerification carrying the caller's original locator; a transport
failure yields FailedRequest with the raw path; success returns the
response text. -/
def verify_contribution (self : Verifier) (verified_locator : String)
    (viewKeyFromStr : String → Except VerifierError ViewKey)
    (send : Request → HttpResult String) :
    Option Request × Except VerifierError String :=
  match viewKeyFromStr self.view_key with
  | .error e => (none, .error e)
  | .ok view_key =>
    let req := verifyRequest self view_key verified_locator
    match send req with
    | .ok status body =>
      if !statusIsSuccess status then
        (some req, .error (.FailedVerification verified_locator))
      else (some req, .ok body)
    | .err =>
      (some req, .error (.FailedRequest (verifyPath verified_locator) self.coordinator_api_url))

/-- download_response_file (lines 117-150).  A non-success status yields
FailedResponseDownload carrying the caller's original locator; a transport
failure yields FailedRequest with the raw path; success returns the byte
buffer. -/
def download_response_file (self : Verifier) (response_locator : String)
    (viewKeyFromStr : String → Except VerifierError ViewKey)
    (send : Request → HttpResult (List UInt8)) :
    Option Request × Except VerifierError (List UInt8) :=
  match viewKeyFromStr self.view_key with
  | .error e => (none, .error e)
  | .ok view_key =>
    let req := locatorRequest self view_key response_locator
    match send req with
    | .ok status body =>
      if !statusIsSuccess status then
        (some req, .error (.FailedResponseDownload response_locator))
      else (some req, .ok body)
    | .err =>
      (some req, .error (.FailedRequest (locatorPath response_locator) self.coordinator_api_url))

/-- download_challenge_file (lines 160-193).  A non-success status yields
FailedChallengeDownload carrying the caller's original locator; a
transport failure yields FailedRequest with the raw path; success returns
the byte buffer. -/
def download_challenge_file (self : Verifier) (challenge_locator : String)
    (viewKeyFromStr : String → Except VerifierError ViewKey)
    (send : Request → HttpResult (List UInt8)) :
    Option Request × Except VerifierError (List UInt8) :=
  match viewKeyFromStr self.view_key with
  | .error e => (none, .error e)
  | .ok view_key =>
    let req := locatorRequest self view_key challenge_locator
    match send req with
    | .ok status body =>
      if !statusIsSuccess status then
        (some req, .error (.FailedChallengeDownload challenge_locator))
      else (some req, .ok body)
    | .err =>
      (some req, .error (.FailedRequest (locatorPath challenge_locator) self.coordinator_api_url))

/-- upload_next_challenge_locator_file (lines 202-246).  A non-success
status yields FailedChallengeUpload carrying the caller's original
locator; a transport failure yields FailedRequest with the raw path;
success returns the response text. -/
def upload_next_challenge_locator_file (self : Verifier) (next_challenge_locator : String)
    (next_challenge_file_bytes : List UInt8)
    (viewKeyFromStr : String → Except VerifierError ViewKey)
    (send : Request → HttpResult String) :
    Option Request × Except VerifierError String :=
  match viewKeyFromStr self.view_key with
  | .error e => (none, .error e)
  | .ok view_key =>
    let req := uploadRequest self view_key next_challenge_locator next_challenge_file_bytes
    match send req with
    | .ok status body =>
      if !statusIsSuccess status then
        (some req, .error (.FailedChallengeUpload next_challenge_locator))
      else (some req, .ok body)
    | .err =>
      (some req,
        .error (.FailedRequest (uploadPath next_challenge_locator) self.coordinator_api_url))

theorem string_data_append (s t : String) : (s ++ t).data = s.data ++ t.data := rfl

theorem containsDotSlash_cons (c : Char) (l : List Char) (hc : ¬ c = '.') :
    containsDotSlash (c :: l) = containsDotSlash l := by
  cases l with
  | nil => simp [containsDotSlash]
  | cons b rest => simp [containsDotSlash, hc]

theorem containsDotSlash_append (t l : List Char) (ht : ∀ c ∈ t, ¬ c = '.') :
    containsDotSlash (t ++ l) = containsDotSlash l := by
  induction t with
  | nil => rfl
  | cons c rest ih =>
    rw [List.cons_append, containsDotSlash_cons c _ (ht c (by simp)),
      ih (fun d hd => ht d (List.mem_cons_of_mem c hd))]

theorem stripDotSlash_of_not_contains (l : List Char) (h : containsDotSlash l = false) :
    stripDotSlash l = l := by
  induction l using stripDotSlash.induct with
  | case1 => rfl
  | case2 c => rfl
  | case3 a b rest hab ih =>
    simp only [containsDotSlash, Bool.or_eq_false_iff] at h
    rw [h.1] at hab
    cases hab
  | case4 a b rest hab ih =>
    simp only [containsDotSlash, Bool.or_eq_false_iff] at h
    simp [stripDotSlash, hab, ih h.2]

theorem canonLocator_of_not_contains (s : String) (h : containsDotSlashStr s = false) :
    canonLocator s = s := by
  obtain ⟨d⟩ := s
  unfold canonLocator
  rw [stripDotSlash_of_not_contains _ h]

theorem containsDotSlashStr_prepend (t s : String) (ht : ∀ c ∈ t.data, ¬ c = '.')
    (h : containsDotSlashStr s = false) : containsDotSlashStr (t ++ s) = false := by
  unfold containsDotSlashStr
  rw [string_data_append, containsDotSlash_append t.data s.data ht]
  exact h

/-- C1 counterexample: at locator "./foo" the URL built by
verify_contribution embeds the raw locator while the signature path is
stripped, so the sent path does not equal the signed path with the `/api`
prefix removed. -/
theorem c1_counterexample :
    ¬ ("/api" ++ (verifyRequest ⟨"", "vk"⟩ ⟨"vk"⟩ "./foo").url = verifySigPath "./foo") := by
  decide

/-- C1 (amended): every locator-bearing operation applies the
`./`-stripping canonicalization to the signing path and prepends `/api`,
while the URL it sends embeds the raw instantiated path; for locators that
contain no `./` occurrence the sent path equals the signed path with the
`/api` prefix removed and the two are otherwise character-identical. -/
theorem c1_sent_vs_signed_path (self : Verifier) (view_key : ViewKey) (locator : String)
    (bytes : List UInt8) (h : containsDotSlashStr locator = false) :
    ((verifyRequest self view_key locator).url = self.coordinator_api_url ++ verifyPath locator ∧
      "/api" ++ verifyPath locator = verifySigPath locator) ∧
    ((locatorRequest self view_key locator).url = self.coordinator_api_url ++ locatorPath locator ∧
      "/api" ++ locatorPath locator = locatorSigPath locator) ∧
    ((uploadRequest self view_key locator bytes).url =
        self.coordinator_api_url ++ uploadPath locator ∧
      "/api" ++ uploadPath locator = uploadSigPath locator) := by
  refine ⟨⟨rfl, ?_⟩, ⟨rfl, ?_⟩, ⟨rfl, ?_⟩⟩ <;>
    simp only [verifySigPath, locatorSigPath, uploadSigPath, verifyPath, locatorPath,
      uploadPath] <;>
    rw [canonLocator_of_not_contains _ (containsDotSlashStr_prepend _ _ (by decide) h)]

theorem c1_witness :
    containsDotSlashStr "chunks/3/challenge" = false ∧
    "/api" ++ verifyPath "chunks/3/challenge" = verifySigPath "chunks/3/challenge" :=
  ⟨by decide,
    ((c1_sent_vs_signed_path ⟨"http://c", "k"⟩ ⟨"k"⟩ "chunks/3/challenge" []
      (by decide)).1).2⟩

/-- C2: for every one of the five coordinator operations the signature is
computed over the fixed `/api` namespace segment followed by the
operation's canonical path: the instantiated path template with every
`./` occurrence stripped for the locator-bearing operations, and the
constant lock path for lock_chunk; each request's Authorization header
carries exactly the signature over that path. -/
theorem c2_signature_path (self : Verifier) (view_key : ViewKey) (locator : String)
    (bytes : List UInt8) :
    lockSigPath = "/api" ++ "/coordinator/verifier/lock" ∧
    verifySigPath locator = "/api" ++ canonLocator ("/coordinator/verify/" ++ locator) ∧
    locatorSigPath locator = "/api" ++ canonLocator ("/coordinator/locator/" ++ locator) ∧
    uploadSigPath locator = "/api" ++ canonLocator ("/coordinator/verification/" ++ locator) ∧
    (lockRequest self view_key).headers =
      [("Authorization", sigToString (authenticate view_key "post" lockSigPath))] ∧
    (verifyRequest self view_key locator).headers =
      [("Authorization", sigToString (authenticate view_key "post" (verifySigPath locator)))] ∧
    (locatorRequest self view_key locator).headers =
      [("Authorization", sigToString (authenticate view_key "get" (locatorSigPath locator)))] ∧
    (uploadRequest self view_key locator bytes).headers =
      [("Authorization", sigToString (authenticate view_key "post" (uploadSigPath locator))),
        ("Content-Type", "application/octet-stream")] :=
  ⟨rfl, rfl, rfl, rfl, rfl, rfl, rfl, rfl⟩

/-- C7 counterexample: locator canonicalization is not idempotent in
general: stripping "..//" yields "./", and stripping again yields "". -/
theorem c7_counterexample :
    ¬ (canonLocator (canonLocator "..//") = canonLocator "..//") := by decide

/-- C7 (amended): canonicalization is idempotent on every locator whose
canonicalized form contains no remaining `./` occurrence (stripping can
create a fresh `./`, as "..//" shows, so unrestricted idempotence fails),
and "./foo/bar" and "foo/bar" canonicalize to the identical string. -/
theorem c7_canon_idempotent (locator : String)
    (h : containsDotSlashStr (canonLocator locator) = false) :
    canonLocator (canonLocator locator) = canonLocator locator ∧
    canonLocator "./foo/bar" = canonLocator "foo/bar" :=
  ⟨canonLocator_of_not_contains _ h, by decide⟩

theorem c7_witness :
    containsDotSlashStr (canonLocator "./chunks/3/challenge") = false ∧
    canonLocator (canonLocator "./chunks/3/challenge") = canonLocator "./chunks/3/challenge" :=
  ⟨by decide, (c7_canon_idempotent "./chunks/3/challenge" (by decide)).1⟩

/-- C8: each of the five operations uses the method and path of the
spec's table, sent at the address formed by concatenating the base URL
and the instantiated path: lock_chunk POSTs the lock path,
verify_contribution POSTs the verify path, both downloads GET the locator
path, and the upload POSTs the verification path. -/
theorem c8_methods_and_urls (self : Verifier) (view_key : ViewKey) (locator : String)
    (bytes : List UInt8) :
    (lockRequest self view_key).method = "post" ∧
    (lockRequest self view_key).url = self.coordinator_api_url ++ "/coordinator/verifier/lock" ∧
    (verifyRequest self view_key locator).method = "post" ∧
    (verifyRequest self view_key locator).url =
      self.coordinator_api_url ++ ("/coordinator/verify/" ++ locator) ∧
    (locatorRequest self view_key locator).method = "get" ∧
    (locatorRequest self view_key locator).url =
      self.coordinator_api_url ++ ("/coordinator/locator/" ++ locator) ∧
    (uploadRequest self view_key locator bytes).method = "post" ∧
    (uploadRequest self view_key locator bytes).url =
      self.coordinator_api_url ++ ("/coordinator/verification/" ++ locator) :=
  ⟨rfl, rfl, rfl, rfl, rfl, rfl, rfl, rfl⟩

/-- C9: every request carries an Authorization header whose value is the
string form of the computed signature; the upload request additionally
carries a Content-Type octet-stream header and the given byte buffer as
its body, and no other operation attaches a body. -/
theorem c9_headers_and_bodies (self : Verifier) (view_key : ViewKey) (locator : String)
    (bytes : List UInt8) :
    (lockRequest self view_key).headers =
      [("Authorization", sigToString (authenticate view_key "post" lockSigPath))] ∧
    (lockRequest self view_key).body = none ∧
    (verifyRequest self view_key locator).headers =
      [("Authorization", sigToString (authenticate view_key "post" (verifySigPath locator)))] ∧
    (verifyRequest self view_key locator).body = none ∧
    (locatorRequest self view_key locator).headers =
      [("Authorization", sigToString (authenticate view_key "get" (locatorSigPath locator)))] ∧
    (locatorRequest self view_key locator).body = none ∧
    (uploadRequest self view_key locator bytes).headers =
      [("Authorization", sigToString (authenticate view_key "post" (uploadSigPath locator))),
        ("Content-Type", "application/octet-stream")] ∧
    (uploadRequest self view_key locator bytes).body = some bytes :=
  ⟨rfl, rfl, rfl, rfl, rfl, rfl, rfl, rfl⟩

/-- C3: for every one of the five coordinator operations, an HTTP
response whose status is not a success status yields exactly the
operation-specific error: FailedLock for lock_chunk, FailedVerification
for verify_contribution, FailedChallengeDownload and
FailedResponseDownload for the downloads, and FailedChallengeUpload for
the upload. -/
theorem c3_status_errors (self : Verifier) (view_key : ViewKey)
    (viewKeyFromStr : String → Except VerifierError ViewKey)
    (hp : viewKeyFromStr self.view_key = .ok view_key)
    (locator : String) (status : Nat) (hs : statusIsSuccess status = false)
    (jbody : Json) (tbody : String) (bbody bytes : List UInt8) :
    (lock_chunk self viewKeyFromStr (fun _ => .ok status jbody)).2 = .error .FailedLock ∧
    (verify_contribution self locator viewKeyFromStr (fun _ => .ok status tbody)).2 =
      .error (.FailedVerification locator) ∧
    (download_challenge_file self locator viewKeyFromStr (fun _ => .ok status bbody)).2 =
      .error (.FailedChallengeDownload locator) ∧
    (download_response_file self locator viewKeyFromStr (fun _ => .ok status bbody)).2 =
      .error (.FailedResponseDownload locator) ∧
    (upload_next_challenge_locator_file self locator bytes viewKeyFromStr
      (fun _ => .ok status tbody)).2 = .error (.FailedChallengeUpload locator) := by
  simp [lock_chunk, verify_contribution, download_challenge_file, download_response_file,
    upload_next_challenge_locator_file, hp, hs]

theorem c3_witness :
    (lock_chunk ⟨"http://c", "k"⟩ (fun s => .ok ⟨s⟩) (fun _ => .ok 404 .null)).2 =
      .error .FailedLock ∧
    (verify_contribution ⟨"http://c", "k"⟩ "./chunks/3/response" (fun s => .ok ⟨s⟩)
      (fun _ => .ok 404 "no")).2 = .error (.FailedVerification "./chunks/3/response") ∧
    (download_challenge_file ⟨"http://c", "k"⟩ "./chunks/3/response" (fun s => .ok ⟨s⟩)
      (fun _ => .ok 404 [])).2 = .error (.FailedChallengeDownload "./chunks/3/response") ∧
    (download_response_file ⟨"http://c", "k"⟩ "./chunks/3/response" (fun s => .ok ⟨s⟩)
      (fun _ => .ok 404 [])).2 = .error (.FailedResponseDownload "./chunks/3/response") ∧
    (upload_next_challenge_locator_file ⟨"http://c", "k"⟩ "./chunks/3/response" []
      (fun s => .ok ⟨s⟩) (fun _ => .ok 404 "no")).2 =
      .error (.FailedChallengeUpload "./chunks/3/response") :=
  c3_status_errors ⟨"http://c", "k"⟩ ⟨"k"⟩ (fun s => .ok ⟨s⟩) rfl "./chunks/3/response" 404
    (by decide) .null "no" [] []

/-- C4: a transport-level failure (the send itself fails, no HTTP
response) on any of the five operations yields FailedRequest carrying the
raw instantiated path, with the caller's original locator, and the base
URL, never a decode error or a status-based operation-specific error. -/
theorem c4_transport_failure (self : Verifier) (view_key : ViewKey)
    (viewKeyFromStr : String → Except VerifierError ViewKey)
    (hp : viewKeyFromStr self.view_key = .ok view_key)
    (locator : String) (bytes : List UInt8) :
    (lock_chunk self viewKeyFromStr (fun _ => .err)).2 =
      .error (.FailedRequest "/coordinator/verifier/lock" self.coordinator_api_url) ∧
    (verify_contribution self locator viewKeyFromStr (fun _ => .err)).2 =
      .error (.FailedRequest ("/coordinator/verify/" ++ locator) self.coordinator_api_url) ∧
    (download_challenge_file self locator viewKeyFromStr (fun _ => .err)).2 =
      .error (.FailedRequest ("/coordinator/locator/" ++ locator) self.coordinator_api_url) ∧
    (download_response_file self locator viewKeyFromStr (fun _ => .err)).2 =
      .error (.FailedRequest ("/coordinator/locator/" ++ locator) self.coordinator_api_url) ∧
    (upload_next_challenge_locator_file self locator bytes viewKeyFromStr (fun _ => .err)).2 =
      .error (.FailedRequest ("/coordinator/verification/" ++ locator)
        self.coordinator_api_url) := by
  simp [lock_chunk, verify_contribution, download_challenge_file, download_response_file,
    upload_next_challenge_locator_file, hp, lockPath, verifyPath, locatorPath, uploadPath]

theorem c4_witness :
    (lock_chunk ⟨"http://c", "k"⟩ (fun s => .ok ⟨s⟩) (fun _ => .err)).2 =
      .error (.FailedRequest "/coordinator/verifier/lock" "http://c") ∧
    (verify_contribution ⟨"http://c", "k"⟩ "./x" (fun s => .ok ⟨s⟩) (fun _ => .err)).2 =
      .error (.FailedRequest ("/coordinator/verify/" ++ "./x") "http://c") ∧
    (download_challenge_file ⟨"http://c", "k"⟩ "./x" (fun s => .ok ⟨s⟩) (fun _ => .err)).2 =
      .error (.FailedRequest ("/coordinator/locator/" ++ "./x") "http://c") ∧
    (download_response_file ⟨"http://c", "k"⟩ "./x" (fun s => .ok ⟨s⟩) (fun _ => .err)).2 =
      .error (.FailedRequest ("/coordinator/locator/" ++ "./x") "http://c") ∧
    (upload_next_challenge_locator_file ⟨"http://c", "k"⟩ "./x" [] (fun s => .ok ⟨s⟩)
      (fun _ => .err)).2 =
      .error (.FailedRequest ("/coordinator/verification/" ++ "./x") "http://c") :=
  c4_transport_failure ⟨"http://c", "k"⟩ ⟨"k"⟩ (fun s => .ok ⟨s⟩) rfl "./x" []

/-- C5: the locator embedded in the operation-specific non-success-status
error is the caller's original, un-canonicalized locator: for a locator
changed by canonicalization, each error carries the original string and
differs from the same error built from the stripped form. -/
theorem c5_error_original_locator (self : Verifier) (view_key : ViewKey)
    (viewKeyFromStr : String → Except VerifierError ViewKey)
    (hp : viewKeyFromStr self.view_key = .ok view_key)
    (locator : String) (status : Nat) (hs : statusIsSuccess status = false)
    (hcanon : canonLocator locator ≠ locator)
    (tbody : String) (bbody bytes : List UInt8) :
    ((verify_contribution self locator viewKeyFromStr (fun _ => .ok status tbody)).2 =
        .error (.FailedVerification locator) ∧
      (verify_contribution self locator viewKeyFromStr (fun _ => .ok status tbody)).2 ≠
        .error (.FailedVerification (canonLocator locator))) ∧
    ((download_challenge_file self locator viewKeyFromStr (fun _ => .ok status bbody)).2 =
        .error (.FailedChallengeDownload locator) ∧
      (download_challenge_file self locator viewKeyFromStr (fun _ => .ok status bbody)).2 ≠
        .error (.FailedChallengeDownload (canonLocator locator))) ∧
    ((download_response_file self locator viewKeyFromStr (fun _ => .ok status bbody)).2 =
        .error (.FailedResponseDownload locator) ∧
      (download_response_file self locator viewKeyFromStr (fun _ => .ok status bbody)).2 ≠
        .error (.FailedResponseDownload (canonLocator locator))) ∧
    ((upload_next_challenge_locator_file self locator bytes viewKeyFromStr
        (fun _ => .ok status tbody)).2 = .error (.FailedChallengeUpload locator) ∧
      (upload_next_challenge_locator_file self locator bytes viewKeyFromStr
        (fun _ => .ok status tbody)).2 ≠
        .error (.FailedChallengeUpload (canonLocator locator))) := by
  refine ⟨⟨?_, ?_⟩, ⟨?_, ?_⟩, ⟨?_, ?_⟩, ⟨?_, ?_⟩⟩ <;>
    simp [verify_contribution, download_challenge_file, download_response_file,
      upload_next_challenge_locator_file, hp, hs] <;>
    exact fun hbad => hcanon hbad.symm

theorem c5_witness :
    canonLocator "./chunks/3/challenge" ≠ "./chunks/3/challenge" ∧
    ((download_challenge_file ⟨"http://c", "k"⟩ "./chunks/3/challenge" (fun s => .ok ⟨s⟩)
        (fun _ => .ok 503 [])).2 =
      .error (.FailedChallengeDownload "./chunks/3/challenge") ∧
      (download_challenge_file ⟨"http://c", "k"⟩ "./chunks/3/challenge" (fun s => .ok ⟨s⟩)
        (fun _ => .ok 503 [])).2 ≠
      .error (.FailedChallengeDownload (canonLocator "./chunks/3/challenge"))) :=
  ⟨by decide,
    (c5_error_original_locator ⟨"http://c", "k"⟩ ⟨"k"⟩ (fun s => .ok ⟨s⟩) rfl
      "./chunks/3/challenge" 503 (by decide) (by decide) "no" [] []).2.1⟩

/-- C6: for lock_chunk, a success-status response with an undecodable
body yields a JsonError distinct from FailedLock, and a success-status
response whose body is a serialized LockResponse returns exactly that
LockResponse. -/
theorem c6_lock_decode (self : Verifier) (view_key : ViewKey)
    (viewKeyFromStr : String → Except VerifierError ViewKey)
    (hp : viewKeyFromStr self.view_key = .ok view_key)
    (status : Nat) (hs : statusIsSuccess status = true)
    (body : Json) (lr : LockResponse) :
    (∀ msg, decodeLockResponse body = .error msg →
      (lock_chunk self viewKeyFromStr (fun _ => .ok status body)).2 =
          .error (.JsonError msg) ∧
        VerifierError.JsonError msg ≠ VerifierError.FailedLock) ∧
    (lock_chunk self viewKeyFromStr (fun _ => .ok status (encodeLockResponse lr))).2 =
      .ok lr := by
  constructor
  · intro msg hmsg
    constructor
    · simp [lock_chunk, hp, hs, hmsg]
    · intro hbad
      cases hbad
  · have hdec : decodeLockResponse (encodeLockResponse lr) = .ok lr := by
      obtain ⟨c, ch, r⟩ := lr
      rfl
    simp [lock_chunk, hp, hs, hdec]

theorem c6_witness :
    (lock_chunk ⟨"http://c", "k"⟩ (fun s => .ok ⟨s⟩) (fun _ => .ok 200 .null)).2 =
      .error (.JsonError "expected a JSON object") ∧
    (lock_chunk ⟨"http://c", "k"⟩ (fun s => .ok ⟨s⟩)
      (fun _ => .ok 200 (encodeLockResponse ⟨"3", "./chunks/3/challenge",
        "./chunks/3/response"⟩))).2 =
      .ok ⟨"3", "./chunks/3/challenge", "./chunks/3/response"⟩ :=
  ⟨((c6_lock_decode ⟨"http://c", "k"⟩ ⟨"k"⟩ (fun s => .ok ⟨s⟩) rfl 200 (by decide) .null
      ⟨"3", "./chunks/3/challenge", "./chunks/3/response"⟩).1 "expected a JSON object" rfl).1,
    (c6_lock_decode ⟨"http://c", "k"⟩ ⟨"k"⟩ (fun s => .ok ⟨s⟩) rfl 200 (by decide) .null
      ⟨"3", "./chunks/3/challenge", "./chunks/3/response"⟩).2⟩

/-- C10: when the stored view-key string fails to parse, every one of the
five operations returns the key-parse error itself and sends no HTTP
request, so it never returns FailedRequest or a status-based
operation-specific error. -/
theorem c10_key_parse_failure (self : Verifier)
    (viewKeyFromStr : String → Except VerifierError ViewKey) (e : VerifierError)
    (hp : viewKeyFromStr self.view_key = .error e)
    (locator : String) (bytes : List UInt8)
    (sendJson : Request → HttpResult Json)
    (sendAck : Request → HttpResult String)
    (sendBytes : Request → HttpResult (List UInt8)) :
    lock_chunk self viewKeyFromStr sendJson = (none, .error e) ∧
    verify_contribution self locator viewKeyFromStr sendAck = (none, .error e) ∧
    download_challenge_file self locator viewKeyFromStr sendBytes = (none, .error e) ∧
    download_response_file self locator viewKeyFromStr sendBytes = (none, .error e) ∧
    upload_next_challenge_locator_file self locator bytes viewKeyFromStr sendAck =
      (none, .error e) := by
  simp [lock_chunk, verify_contribution, download_challenge_file, download_response_file,
    upload_next_challenge_locator_file, hp]

theorem c10_witness :
    lock_chunk ⟨"http://c", "bad"⟩ (fun _ => .error .InvalidKey) (fun _ => .err) =
      (none, .error .InvalidKey) ∧
    verify_contribution ⟨"http://c", "bad"⟩ "./x" (fun _ => .error .InvalidKey)
      (fun _ => .err) = (none, .error .InvalidKey) ∧
    download_challenge_file ⟨"http://c", "bad"⟩ "./x" (fun _ => .error .InvalidKey)
      (fun _ => .err) = (none, .error .InvalidKey) ∧
    download_response_file ⟨"http://c", "bad"⟩ "./x" (fun _ => .error .InvalidKey)
      (fun _ => .err) = (none, .error .InvalidKey) ∧
    upload_next_challenge_locator_file ⟨"http://c", "bad"⟩ "./x" []
      (fun _ => .error .InvalidKey) (fun _ => .err) = (none, .error .InvalidKey) :=
  c10_key_parse_failure ⟨"http://c", "bad"⟩ (fun _ => .error .InvalidKey) .InvalidKey rfl
    "./x" [] (fun _ => .err) (fun _ => .err) (fun _ => .err)
